import Mathlib

/-!
Shallow embedding of the ruvoplayer backend and player heuristics.

The embedded code:
* `api/stream-proxy.js` (Vercel serverless stream relay handler);
* the local Express server's `handleStreamProxy` (same endpoint,
  with streamUrl extension validation and an MKV content-type branch);
* the image proxy handler (`/api/image`);
* `ImageCacheService` (`cacheImage` / `ensureCacheSpace` / `calculateLRUScore`);
* `AdaptiveQualityService` (`calculateBufferHealth`, `calculateNetworkStability`,
  `shouldUpgradeQuality`, `shouldDowngradeQuality`, `assessQualityAndAdjust`)
  together with `VideoPerformanceService.getAdaptiveQualityConfig`.

JavaScript numbers are modelled as `ℚ` (all arithmetic in these code paths is
exact on the values that occur), header maps as explicit optional fields, and
thrown exceptions as `Except`.
-/

namespace RuvoPlayer

/-- JavaScript `String.prototype.includes`: substring containment. -/
def jsIncludes (s sub : String) : Bool :=
  s.toList.tails.any fun t => sub.toList.isPrefixOf t

/-- JavaScript string truthiness for an optional header value:
`undefined` and the empty string are falsy. -/
def jsTruthy (v : Option String) : Bool :=
  match v with
  | none => false
  | some s => s ≠ ""

/-- JavaScript `x || d` on an optional string: `undefined` and `""` fall back. -/
def jsOrStr (x : Option String) (d : String) : String :=
  match x with
  | none => d
  | some s => if s = "" then d else s

/-- Split a character list at every occurrence of `sep`
(JavaScript `String.prototype.split` with a one-character separator). -/
def splitOnChar (sep : Char) : List Char → List (List Char)
  | [] => [[]]
  | c :: cs =>
      let r := splitOnChar sep cs
      if c = sep then [] :: r
      else
        match r with
        | [] => [[c]]
        | g :: gs => (c :: g) :: gs

/-- Split a character list at the first occurrence of the pattern `pat`:
`some (before, after)` with the pattern removed, `none` when absent. -/
def breakOnSubstr (pat : List Char) : List Char → Option (List Char × List Char)
  | [] => if pat.isPrefixOf ([] : List Char) then some ([], []) else none
  | c :: cs =>
      if pat.isPrefixOf (c :: cs) then some ([], (c :: cs).drop pat.length)
      else (breakOnSubstr pat cs).map fun p => (c :: p.1, p.2)

/-- Upper-case hexadecimal digit for `n < 16`. -/
def hexDigit (n : Nat) : Char :=
  if n < 10 then Char.ofNat (48 + n) else Char.ofNat (55 + n)

/-- The UTF-8 encoding of one character, as a list of byte values. -/
def utf8Bytes (c : Char) : List Nat :=
  let n := c.toNat
  if n < 128 then [n]
  else if n < 2048 then [192 + n / 64, 128 + n % 64]
  else if n < 65536 then [224 + n / 4096, 128 + (n / 64) % 64, 128 + n % 64]
  else [240 + n / 262144, 128 + (n / 4096) % 64, 128 + (n / 64) % 64, 128 + n % 64]

/-- Percent-encoding of one byte, upper-case hex, as `encodeURIComponent` emits. -/
def percentByte (b : Nat) : List Char :=
  ['%', hexDigit (b / 16), hexDigit (b % 16)]

/-- Characters `encodeURIComponent` leaves unescaped:
`A–Z a–z 0–9 - _ . ! ~ * ' ( )`. -/
def uriUnreserved (c : Char) : Bool :=
  (('A' ≤ c ∧ c ≤ 'Z') ∨ ('a' ≤ c ∧ c ≤ 'z') ∨ ('0' ≤ c ∧ c ≤ '9')
    ∨ c = '-' ∨ c = '_' ∨ c = '.' ∨ c = '!' ∨ c = '~' ∨ c = '*'
    ∨ c = '\'' ∨ c = '(' ∨ c = ')')

/-- JavaScript `encodeURIComponent`: unreserved characters are kept, every other
character is replaced by the percent-encoding of its UTF-8 bytes. -/
def encodeURIComponent (s : String) : String :=
  String.mk (List.flatten (s.toList.map fun c =>
    if uriUnreserved c then [c]
    else List.flatten ((utf8Bytes c).map percentByte)))

/-- Modelled from the platform's WHATWG `URL` class (not repository code):
`new URL(u).origin` for an `http(s)`-style absolute URL.  Returns the scheme,
`://` and the authority with any userinfo stripped; `none` when `u` has no
`://` separator (in which case the repository code's `new URL(u)` throws and
the surrounding `catch` answers 500). -/
def parseOrigin (u : String) : Option String :=
  match breakOnSubstr "://".toList u.toList with
  | none => none
  | some (scheme, rest) =>
      if scheme = [] ∨ rest = [] then none
      else
        let authority := rest.takeWhile fun c => ¬(c = '/' ∨ c = '?' ∨ c = '#')
        let host := (splitOnChar '@' authority).getLastD authority
        if host = [] then none
        else some (String.mk scheme ++ "://" ++ String.mk host)

/-! ## Stream proxy (`/api/stream-proxy`)

Two implementations serve this endpoint: the Vercel serverless handler
`api/stream-proxy.js` and the local Express server's `handleStreamProxy`.
Each handler is split into a validation phase (which decides whether an
outbound request is opened, and with which headers) and a response phase
(a pure function of the upstream response). -/

/-- Inbound request method; `OPTIONS` is answered by separate preflight code
before either handler's body runs. -/
inductive Method
  | get
  | head
deriving DecidableEq, Repr

/-- The part of the inbound request both stream-proxy handlers read. -/
structure ProxyReq where
  method : Method
  streamUrl : Option String
  range : Option String
  authorization : Option String
deriving DecidableEq, Repr

/-- The fixed browser-like User-Agent string both handlers send upstream. -/
def chromeUserAgent : String :=
  "Mozilla/5.0 (Windows NT 10.0; Win64; x64) AppleWebKit/537.36 (KHTML, like Gecko) Chrome/120.0.0.0 Safari/537.36"

/-- The outbound upstream request a stream-proxy handler opens. -/
structure OutboundReq where
  url : String
  method : String
  userAgent : String
  referer : String
  range : Option String
  authorization : Option String
  timeoutMs : Nat
deriving DecidableEq, Repr

/-- What the handler sends back to the client. -/
inductive ClientResp
  /-- `res.status(code).json({status: statusField, message})`. -/
  | json (code : Nat) (statusField message : String)
  /-- `res.redirect(target)`. -/
  | redirect (target : String)
  /-- Streaming response: status, Content-Type, optional Content-Length,
  Accept-Ranges, optional Content-Range, and whether a body is piped. -/
  | stream (code : Nat) (contentType : String) (contentLength : Option String)
      (acceptRanges : String) (contentRange : Option String) (hasBody : Bool)
deriving DecidableEq, Repr

/-- Validation phase outcome: either an immediate client response with no
outbound request, or the outbound request that is opened. -/
inductive Phase1
  | reject (resp : ClientResp)
  | forward (out : OutboundReq)
deriving DecidableEq, Repr

/-- Outbound requests opened by a validation-phase outcome. -/
def Phase1.outbound : Phase1 → List OutboundReq
  | .reject _ => []
  | .forward out => [out]

/-- The `Range` header forwarded upstream, when the phase forwards at all. -/
def Phase1.forwardedRange : Phase1 → Option (Option String)
  | .reject _ => none
  | .forward out => some out.range

/-- The upstream headers both handlers build
(`User-Agent`, `Referer: origin`, conditional `Range`/`Authorization`),
shared between `handleStreamProxy` and the Vercel handler, whose header
objects are identical: `...(req.headers.range && {Range})` and
`...(req.headers.range ? {Range} : {})` spread the header exactly when the
inbound value is truthy. -/
def mkOutbound (streamUrl origin : String) (isHead : Bool) (req : ProxyReq) :
    OutboundReq where
  url := streamUrl
  method := if isHead then "HEAD" else "GET"
  userAgent := chromeUserAgent
  referer := origin
  range := if jsTruthy req.range then req.range else none
  authorization := if jsTruthy req.authorization then req.authorization else none
  timeoutMs := 60000

/-- The extension check of the Express `handleStreamProxy`:
`streamUrl.includes('.m3u8') || ... || streamUrl.includes('.mov')`
(the source negates each conjunct; this is the accepted side). -/
def validStreamUrl (streamUrl : String) : Bool :=
  jsIncludes streamUrl ".m3u8" || jsIncludes streamUrl ".ts" ||
  jsIncludes streamUrl ".mp4" || jsIncludes streamUrl ".mkv" ||
  jsIncludes streamUrl ".avi" || jsIncludes streamUrl ".mov"

/-- Validation phase of the Express server's `handleStreamProxy`
(`server.js`): `if (!streamUrl)` — absent or empty (falsy) — → 400
`Missing streamUrl parameter`; no recognised media extension substring →
400; `new URL` failure → caught, 500; otherwise the outbound request is
opened.  `isHead` is true exactly on the `app.head` route. -/
def handleStreamProxyPhase1 (req : ProxyReq) : Phase1 :=
  match req.streamUrl with
  | none => .reject (.json 400 "error" "Missing streamUrl parameter")
  | some streamUrl =>
      if streamUrl = "" then
        .reject (.json 400 "error" "Missing streamUrl parameter")
      else if ¬ validStreamUrl streamUrl then
        .reject (.json 400 "error" "Invalid stream URL format")
      else
        match parseOrigin streamUrl with
        | none => .reject (.json 500 "error" "Invalid URL")
        | some origin =>
            .forward (mkOutbound streamUrl origin (req.method = .head) req)

/-- Validation phase of the Vercel handler (`api/stream-proxy.js`):
`if (!streamUrl)` — absent or empty (falsy) — → 400
`Missing streamUrl parameter`; `new URL` failure → caught, 500; otherwise
the outbound request is opened.  There is no media-extension check. -/
def vercelStreamProxyPhase1 (req : ProxyReq) : Phase1 :=
  match req.streamUrl with
  | none => .reject (.json 400 "error" "Missing streamUrl parameter")
  | some streamUrl =>
      if streamUrl = "" then
        .reject (.json 400 "error" "Missing streamUrl parameter")
      else
      match parseOrigin streamUrl with
      | none => .reject (.json 500 "error" "Invalid URL")
      | some origin =>
          .forward (mkOutbound streamUrl origin (req.method = .head) req)

/-- The upstream response headers the handlers read. -/
structure UpstreamResp where
  statusCode : Nat
  location : Option String
  contentType : Option String
  contentLength : Option String
  acceptRanges : Option String
  contentRange : Option String
deriving DecidableEq, Repr

/-- A thrown JavaScript exception. -/
inductive JsError
  | typeError (msg : String)
deriving DecidableEq, Repr

/-- Response phase of the Vercel handler (`api/stream-proxy.js`), a pure
function of the upstream response: 3xx with a `Location` → redirect back
through the proxy; any status other than 200/206 → JSON error with
`upstream.statusCode || 500`; 200/206 → stream with forwarded headers
(`content-type` defaulting to `application/octet-stream`, `accept-ranges`
defaulting to `bytes`), no body on HEAD. -/
def vercelStreamProxyRespond (isHead : Bool) (u : UpstreamResp) : ClientResp :=
  if 300 ≤ u.statusCode ∧ u.statusCode < 400 ∧ jsTruthy u.location then
    .redirect ("/api/stream-proxy?streamUrl=" ++ encodeURIComponent (u.location.getD ""))
  else if u.statusCode ≠ 200 ∧ u.statusCode ≠ 206 then
    .json (if u.statusCode = 0 then 500 else u.statusCode) "error"
      ("Stream server responded with status " ++ toString u.statusCode)
  else
    .stream u.statusCode (jsOrStr u.contentType "application/octet-stream")
      (if jsTruthy u.contentLength then u.contentLength else none)
      (jsOrStr u.acceptRanges "bytes")
      (if jsTruthy u.contentRange then u.contentRange else none) (!isHead)

/-- Response phase of the Express `handleStreamProxy`.  On 200/206 the source
evaluates `url.includes('.mkv')` where `url` is the `URL` instance built by
`new URL(streamUrl)`; `URL` has no `includes` method, so this expression
throws a `TypeError` before any header is set, modelled as `Except.error`.
The 3xx and error branches complete normally. -/
def handleStreamProxyRespond (_isHead : Bool) (u : UpstreamResp) :
    Except JsError ClientResp :=
  if 300 ≤ u.statusCode ∧ u.statusCode < 400 ∧ jsTruthy u.location then
    .ok (.redirect
      ("/api/stream-proxy?streamUrl=" ++ encodeURIComponent (u.location.getD "")))
  else if u.statusCode ≠ 200 ∧ u.statusCode ≠ 206 then
    .ok (.json u.statusCode "error"
      ("Stream server responded with status " ++ toString u.statusCode))
  else
    .error (.typeError "url.includes is not a function")

/-! ## Image proxy (`/api/image`) -/

/-- The part of the inbound `/api/image` request the handler reads. -/
structure ImageReq where
  url : Option String
deriving DecidableEq, Repr

/-- The outbound `fetch` the image handler performs. -/
structure ImageFetch where
  url : String
  method : String
  userAgent : String
  accept : String
  referer : String
deriving DecidableEq, Repr

/-- The final upstream response seen by the image handler's `fetch`. -/
structure ImageUpstream where
  status : Nat
  contentType : Option String
  bytes : List Nat
deriving DecidableEq, Repr

/-- What the image handler sends back to the client. -/
inductive ImageResp
  | json (code : Nat) (statusField message : String)
  /-- `res.status(200).end(buffer)` with `Content-Type` and `Cache-Control`. -/
  | bytesResp (code : Nat) (contentType cacheControl : String) (body : List Nat)
deriving DecidableEq, Repr

/-- Validation phase of the image proxy handler: missing `url` → 400;
`new URL` failure → caught, 500; otherwise the outbound fetch, with the
browser User-Agent and `Referer` set to the target's origin. -/
def imageHandlerPhase1 (req : ImageReq) :
    Sum ImageResp ImageFetch :=
  match req.url with
  | none => .inl (.json 400 "error" "Missing url parameter")
  | some u =>
      if u = "" then .inl (.json 400 "error" "Missing url parameter")
      else
      match parseOrigin u with
      | none => .inl (.json 500 "error" "Invalid URL")
      | some origin =>
          .inr { url := u, method := "GET", userAgent := chromeUserAgent,
                 accept := "image/avif,image/webp,image/apng,image/*,*/*;q=0.8",
                 referer := origin }

/-- Response phase of the image proxy handler: `response.ok` (status in
200–299) → 200 with the upstream `Content-Type` (default `image/jpeg`),
`Cache-Control: public, max-age=86400` and the fetched bytes; otherwise the
upstream status with a JSON error body. -/
def imageHandlerRespond (u : ImageUpstream) : ImageResp :=
  if 200 ≤ u.status ∧ u.status ≤ 299 then
    .bytesResp 200 (jsOrStr u.contentType "image/jpeg") "public, max-age=86400"
      u.bytes
  else
    .json u.status "error" ("Upstream responded " ++ toString u.status)

/-! ## Adaptive quality (`AdaptiveQualityService`, `VideoPerformanceService`) -/

/-- One HLS quality level (`hls.levels[i]`); only `bitrate` drives decisions. -/
structure Level where
  bitrate : ℚ
  width : ℚ
  height : ℚ
deriving DecidableEq, Repr

/-- The media element state read by `calculateBufferHealth`: the buffered
`TimeRanges` as a list of `(start, end)` pairs, and `currentTime`. -/
structure MediaState where
  buffered : List (ℚ × ℚ)
  currentTime : ℚ
deriving DecidableEq, Repr

/-- The HLS.js instance state the service reads and writes.  `media := none`
models a detached media element (`hls.media.buffered` then throws and the
`catch` in `calculateBufferHealth` answers `0.5`); `levels := none` models
`hls.levels` being undefined.  `currentLevel` is `-1` for auto selection. -/
structure HlsState where
  media : Option MediaState
  levels : Option (List Level)
  currentLevel : Int
deriving DecidableEq, Repr

/-- One entry of `qualityState.qualityHistory`. -/
structure QualityChange where
  timestamp : ℚ
  fromLevel : Int
  toLevel : Int
  reason : String
  bufferHealth : ℚ
deriving DecidableEq, Repr

/-- The per-stream `AdaptiveQualityState`. -/
structure AdaptiveQualityState where
  currentQuality : Int
  targetQuality : Int
  bufferHealth : ℚ
  networkStability : ℚ
  lastQualityChange : ℚ
  qualityHistory : List QualityChange
deriving DecidableEq, Repr

/-- The object `VideoPerformanceService.getAdaptiveQualityConfig` returns.
`vodQualityUpgradeInterval` is `some` exactly when built for VOD (the `vod`
sub-object is `{}` for live, so `config.vod?.qualityUpgradeInterval` is
undefined there). -/
structure AdaptiveQualityConfig where
  enabled : Bool
  startWithLowQuality : Bool
  qualitySwitchThreshold : ℚ
  bandwidthTestInterval : ℚ
  qualityUpgradeDelay : ℚ
  qualityDowngradeThreshold : ℚ
  bufferHealthThreshold : ℚ
  vodQualityUpgradeInterval : Option ℚ
deriving DecidableEq, Repr

/-- `VideoPerformanceService.getAdaptiveQualityConfig(isVod)`: both the VOD
and the live base config carry `qualitySwitchThreshold: 0.7`,
`qualityUpgradeDelay: 5000`, `qualityDowngradeThreshold: 0.3`,
`bufferHealthThreshold: 0.8`, `bandwidthTestInterval: 10000`,
`adaptiveQualityEnabled: false`, `startWithLowQuality: true`; the `vod`
sub-object (with `qualityUpgradeInterval: 15000`) is populated only for VOD. -/
def getAdaptiveQualityConfig (isVod : Bool) : AdaptiveQualityConfig where
  enabled := false
  startWithLowQuality := true
  qualitySwitchThreshold := 7/10
  bandwidthTestInterval := 10000
  qualityUpgradeDelay := 5000
  qualityDowngradeThreshold := 3/10
  bufferHealthThreshold := 8/10
  vodQualityUpgradeInterval := if isVod then some 15000 else none

/-- JavaScript `x || d` on an optional number: `undefined` and `0` fall back. -/
def jsOrNum (x : Option ℚ) (d : ℚ) : ℚ :=
  match x with
  | none => d
  | some v => if v = 0 then d else v

/-- `AdaptiveQualityService.calculateBufferHealth`: with no media the `try`
fails and the `catch` answers `0.5`; with no buffered range the result is `0`;
with an empty span (`bufferedEnd <= bufferedStart`) the result is `0`;
otherwise `min((bufferedEnd - currentTime) / (bufferedEnd - bufferedStart), 1)`
where `bufferedEnd` is the end of the last range and `bufferedStart` the start
of the first. -/
def calculateBufferHealth (hls : HlsState) : ℚ :=
  match hls.media with
  | none => 1/2
  | some m =>
      match m.buffered with
      | [] => 0
      | r :: rs =>
          let bufferedEnd := (rs.getLastD r).2
          let bufferedStart := r.1
          if bufferedEnd ≤ bufferedStart then 0
          else min ((bufferedEnd - m.currentTime) / (bufferedEnd - bufferedStart)) 1

/-- `AdaptiveQualityService.calculateNetworkStability`: the source returns the
constant `0.8` ("simplified calculation") for every instance. -/
def calculateNetworkStability (_hls : HlsState) : ℚ := 4/5

/-- `AdaptiveQualityService.shouldUpgradeQuality`: buffer health above
`config.qualitySwitchThreshold`, network stability above `0.7`, and more than
`minDelay` milliseconds since the last quality change, where `minDelay` is
`config.vod?.qualityUpgradeInterval || 15000` for VOD and
`config.qualityUpgradeDelay || 5000` for live. -/
def shouldUpgradeQuality (st : AdaptiveQualityState)
    (config : AdaptiveQualityConfig) (isVod : Bool) (now : ℚ) : Bool :=
  let timeSinceLastChange := now - st.lastQualityChange
  let minDelay : ℚ :=
    if isVod then jsOrNum config.vodQualityUpgradeInterval 15000
    else jsOrNum (some config.qualityUpgradeDelay) 5000
  decide (st.bufferHealth > config.qualitySwitchThreshold) &&
  decide (st.networkStability > 7/10) &&
  decide (timeSinceLastChange > minDelay)

/-- `AdaptiveQualityService.shouldDowngradeQuality`:
buffer health below `config.qualityDowngradeThreshold`. -/
def shouldDowngradeQuality (st : AdaptiveQualityState)
    (config : AdaptiveQualityConfig) : Bool :=
  decide (st.bufferHealth < config.qualityDowngradeThreshold)

/-- Index of the next higher-bitrate level: the source's
`for (let i = currentLevel + 1; i < levels.length; i++)` loop, answering the
first `i` with `levels[i].bitrate > levels[currentLevel].bitrate`, or
`currentLevel` itself when none exists. -/
def findUpgradeLevel (levels : List Level) (c : Nat) : Nat :=
  match ((List.range levels.length).filter (fun i => c + 1 ≤ i)).find?
      (fun i =>
        match levels.get? i, levels.get? c with
        | some li, some lc => li.bitrate > lc.bitrate
        | _, _ => false) with
  | some i => i
  | none => c

/-- Index of the next lower-bitrate level: the source's
`for (let i = currentLevel - 1; i >= 0; i--)` loop, answering the first `i`
(counting down) with `levels[i].bitrate < levels[currentLevel].bitrate`, or
`currentLevel` itself when none exists. -/
def findDowngradeLevel (levels : List Level) (c : Nat) : Nat :=
  match (List.range c).reverse.find?
      (fun i =>
        match levels.get? i, levels.get? c with
        | some li, some lc => li.bitrate < lc.bitrate
        | _, _ => false) with
  | some i => i
  | none => c

/-- Append a quality change and apply the source's
`if (qualityHistory.length > 10) shift()` trimming. -/
def pushHistory (h : List QualityChange) (qc : QualityChange) :
    List QualityChange :=
  let h1 := h ++ [qc]
  if h1.length > 10 then h1.tail else h1

/-- `AdaptiveQualityService.upgradeQuality`: no-op when `hls.levels` is unset
or `currentLevel === -1`; otherwise switch to the next higher-bitrate level
(if any), stamping `currentQuality`, `lastQualityChange` and the history.
(`hls.js` keeps `currentLevel ≥ -1`, the only domain this models.) -/
def upgradeQuality (hls : HlsState) (st : AdaptiveQualityState) (now : ℚ) :
    AdaptiveQualityState × HlsState :=
  match hls.levels with
  | none => (st, hls)
  | some levels =>
      if hls.currentLevel = -1 then (st, hls)
      else
        let c := hls.currentLevel.toNat
        let next := findUpgradeLevel levels c
        if next = c then (st, hls)
        else
          ({ st with
              currentQuality := next
              lastQualityChange := now
              qualityHistory := pushHistory st.qualityHistory
                { timestamp := now, fromLevel := c, toLevel := next,
                  reason := "buffer_health_improvement",
                  bufferHealth := st.bufferHealth } },
           { hls with currentLevel := next })

/-- `AdaptiveQualityService.downgradeQuality`: no-op when `hls.levels` is
unset or `currentLevel === -1`; otherwise switch to the next lower-bitrate
level (if any), stamping the state as in `upgradeQuality`. -/
def downgradeQuality (hls : HlsState) (st : AdaptiveQualityState) (now : ℚ) :
    AdaptiveQualityState × HlsState :=
  match hls.levels with
  | none => (st, hls)
  | some levels =>
      if hls.currentLevel = -1 then (st, hls)
      else
        let c := hls.currentLevel.toNat
        let next := findDowngradeLevel levels c
        if next = c then (st, hls)
        else
          ({ st with
              currentQuality := next
              lastQualityChange := now
              qualityHistory := pushHistory st.qualityHistory
                { timestamp := now, fromLevel := c, toLevel := next,
                  reason := "buffer_health_degradation",
                  bufferHealth := st.bufferHealth } },
           { hls with currentLevel := next })

/-- `AdaptiveQualityService.assessQualityAndAdjust` for one stream: early
return when no quality state is stored or `hls.levels` is unset; otherwise
store the computed buffer health and network stability, then upgrade or
downgrade per the two threshold checks. -/
def assessQualityAndAdjust (st? : Option AdaptiveQualityState)
    (hls : HlsState) (isVod : Bool) (config : AdaptiveQualityConfig)
    (now : ℚ) : Option AdaptiveQualityState × HlsState :=
  match st?, hls.levels with
  | some st, some _ =>
      let st1 := { st with bufferHealth := calculateBufferHealth hls }
      let st2 := { st1 with networkStability := calculateNetworkStability hls }
      if shouldUpgradeQuality st2 config isVod now then
        (some (upgradeQuality hls st2 now).1, (upgradeQuality hls st2 now).2)
      else if shouldDowngradeQuality st2 config then
        (some (downgradeQuality hls st2 now).1, (downgradeQuality hls st2 now).2)
      else (some st2, hls)
  | _, _ => (st?, hls)

/-! ## Image cache (`ImageCacheService`)

The JS `Map<string, CachedImage>` is modelled as a list of entries in
insertion order (JS map iteration order), keyed by `url`; keys are unique in
every reachable state. -/

/-- One cached image entry.  `accessCount` starts at 1 and is only ever
incremented, so it is a natural number. -/
structure CachedImage where
  url : String
  dataUrl : String
  timestamp : ℚ
  size : ℚ
  lastAccessed : ℚ
  accessCount : Nat
deriving DecidableEq, Repr

/-- The service's `CacheConfig`. -/
structure CacheConfig where
  maxSize : ℚ
  maxImages : ℤ
  ttl : ℚ
  enableCompression : Bool
  compressionQuality : ℚ
deriving DecidableEq, Repr

/-- The constructor default config: 100 MB, 1000 images, 24 h TTL. -/
def defaultCacheConfig : CacheConfig where
  maxSize := 100 * 1024 * 1024
  maxImages := 1000
  ttl := 24 * 60 * 60 * 1000
  enableCompression := true
  compressionQuality := 8/10

/-- `ImageCacheService.calculateDataUrlSize`: the base64 part after the first
comma, with `Math.ceil(length * 3 / 4)`; `0` when that part is missing or
empty (both falsy). -/
def calculateDataUrlSize (dataUrl : String) : ℚ :=
  match (splitOnChar ',' dataUrl.toList).get? 1 with
  | none => 0
  | some b => if b = [] then 0 else ((⌈(b.length * 3 : ℚ) / 4⌉ : ℤ) : ℚ)

/-- `ImageCacheService.calculateLRUScore`:
`(now - lastAccessed) * (1 / (accessCount + 1))` (lower = evict sooner). -/
def calculateLRUScore (now : ℚ) (img : CachedImage) : ℚ :=
  (now - img.lastAccessed) * (1 / ((img.accessCount : ℚ) + 1))

/-- The `for ... of cache.entries()` minimum scan in `ensureCacheSpace`:
starting from `lruUrl = ''`, `lruScore = Infinity`, keep the first entry with
a strictly smaller score.  Returns `''` on an empty cache (as the source
does), else the url of the first minimal-score entry. -/
def findLRUUrl (now : ℚ) (cache : List CachedImage) : String :=
  (cache.foldl
    (fun acc img =>
      match acc with
      | none => some (img.url, calculateLRUScore now img)
      | some (u, s) =>
          if calculateLRUScore now img < s then
            some (img.url, calculateLRUScore now img)
          else some (u, s))
    none).elim "" Prod.fst

/-- Total cached size (`getCurrentCacheSize`). -/
def cacheTotalSize (cache : List CachedImage) : ℚ :=
  (cache.map (·.size)).sum

/-- State of the `while` loop in `ensureCacheSpace`: the map, the tracked
`currentSize` and `currentCount` variables, and the entries evicted so far
(in eviction order). -/
structure EvictState where
  cache : List CachedImage
  currentSize : ℚ
  currentCount : ℤ
  evicted : List CachedImage
deriving DecidableEq, Repr

/-- The `while` loop of `ensureCacheSpace`, run with explicit fuel: while
`currentSize + requiredSize > maxSize || currentCount >= maxImages` and the
cache is non-empty, evict the minimal-score entry.  When the minimal entry's
url is the empty string the source loops forever (the `if (lruUrl)` guard
never deletes); the embedding then returns the stuck state.  Fuel
`cache.length` suffices whenever every cached url is non-empty. -/
def ensureCacheSpaceLoop (cfg : CacheConfig) (now requiredSize : ℚ) :
    Nat → EvictState → EvictState
  | 0, s => s
  | fuel + 1, s =>
      if (s.currentSize + requiredSize > cfg.maxSize ∨
            s.currentCount ≥ cfg.maxImages) ∧ s.cache ≠ [] then
        let lruUrl := findLRUUrl now s.cache
        if lruUrl = "" then s
        else
          match s.cache.find? (fun e => e.url = lruUrl) with
          | some removed =>
              ensureCacheSpaceLoop cfg now requiredSize fuel
                { cache := s.cache.eraseP (fun e => e.url = lruUrl)
                  currentSize := s.currentSize - removed.size
                  currentCount := s.currentCount - 1
                  evicted := s.evicted ++ [removed] }
          | none => s
      else s

/-- `ImageCacheService.ensureCacheSpace`: when `requiredSize > maxSize` the
source returns at once ("Image is too large, can't cache it") and evicts
nothing; otherwise the eviction loop runs.  Returns the surviving cache and
the evicted entries in order. -/
def ensureCacheSpace (cfg : CacheConfig) (now : ℚ)
    (cache : List CachedImage) (requiredSize : ℚ) :
    List CachedImage × List CachedImage :=
  if requiredSize > cfg.maxSize then (cache, [])
  else
    let s := ensureCacheSpaceLoop cfg now requiredSize cache.length
      { cache := cache, currentSize := cacheTotalSize cache,
        currentCount := cache.length, evicted := [] }
    (s.cache, s.evicted)

/-- JS `Map.set` on the url-keyed entry list: replace in place, else append. -/
def mapSet (cache : List CachedImage) (img : CachedImage) :
    List CachedImage :=
  if cache.any (fun e => e.url = img.url) then
    cache.map (fun e => if e.url = img.url then img else e)
  else cache ++ [img]

/-- `ImageCacheService.cacheImage`: compute the data-url size, call
`ensureCacheSpace`, then unconditionally `cache.set` the new entry
(timestamped `now`, `accessCount` 1).  Returns the new cache and the evicted
entries. -/
def cacheImage (cfg : CacheConfig) (now : ℚ) (cache : List CachedImage)
    (url dataUrl : String) : List CachedImage × List CachedImage :=
  let size := calculateDataUrlSize dataUrl
  let (cache', evicted) := ensureCacheSpace cfg now cache size
  (mapSet cache'
    { url := url, dataUrl := dataUrl, timestamp := now, size := size,
      lastAccessed := now, accessCount := 1 },
   evicted)

/-! ## Concrete fixtures used by witnesses and counterexamples -/

/-- A GET request whose `streamUrl` has no recognised media extension. -/
def reqNoExt : ProxyReq :=
  { method := .get, streamUrl := some "http://example.com/live",
    range := none, authorization := none }

/-- A GET request with no `streamUrl` parameter. -/
def reqMissing : ProxyReq :=
  { method := .get, streamUrl := none, range := none, authorization := none }

/-- A GET request for an `.mp4` with non-empty `Range` and `Authorization`. -/
def reqValidExt : ProxyReq :=
  { method := .get, streamUrl := some "http://example.com/movie.mp4",
    range := some "bytes=0-", authorization := some "Bearer token123" }

/-- A GET request carrying a `Range` header whose value is the empty string. -/
def reqEmptyRange : ProxyReq :=
  { method := .get, streamUrl := some "http://example.com/a.m3u8",
    range := some "", authorization := none }

/-- The outbound request produced for `reqValidExt`. -/
def outValidExt : OutboundReq :=
  mkOutbound "http://example.com/movie.mp4" "http://example.com" false reqValidExt

/-- An upstream 200 for an `.mkv` target with a Matroska content type. -/
def mkvUpstream200 : UpstreamResp :=
  { statusCode := 200, location := none, contentType := some "video/x-matroska",
    contentLength := some "1000", acceptRanges := none, contentRange := none }

/-- An upstream 302 carrying a `Location` header with an empty value. -/
def upstream302Empty : UpstreamResp :=
  { statusCode := 302, location := some "", contentType := none,
    contentLength := none, acceptRanges := none, contentRange := none }

/-- An upstream 301 with a non-empty `Location` header. -/
def upstream301Loc : UpstreamResp :=
  { statusCode := 301, location := some "http://cdn.example/live.m3u8",
    contentType := none, contentLength := none, acceptRanges := none,
    contentRange := none }

/-- An upstream 404 with no `Location` header. -/
def upstream404 : UpstreamResp :=
  { statusCode := 404, location := none, contentType := none,
    contentLength := none, acceptRanges := none, contentRange := none }

/-- An image request for a PNG on a host with a port. -/
def imageReqPng : ImageReq := { url := some "http://img.example:8080/poster.png" }

/-- A 200 image upstream with a content type and three bytes of body. -/
def imageUpstreamOk : ImageUpstream :=
  { status := 200, contentType := some "image/png", bytes := [137, 80, 78] }

/-- A 403 image upstream. -/
def imageUpstreamForbidden : ImageUpstream :=
  { status := 403, contentType := none, bytes := [] }

/-- A media state whose playback position lies beyond the buffered end. -/
def hlsPastBuffer : HlsState :=
  { media := some { buffered := [(0, 10)], currentTime := 20 },
    levels := none, currentLevel := -1 }

/-- A media state with the playhead in the middle of a single buffered range. -/
def hlsMid : HlsState :=
  { media := some { buffered := [(0, 10)], currentTime := 5 },
    levels := some [], currentLevel := -1 }

/-- A quality state with low buffer health. -/
def stLow : AdaptiveQualityState :=
  { currentQuality := 0, targetQuality := 0, bufferHealth := 1/4,
    networkStability := 4/5, lastQualityChange := 0, qualityHistory := [] }

/-- A cache config whose `maxSize` was shrunk to 10 bytes
(reachable through `updateCacheConfig`). -/
def smallCacheConfig : CacheConfig :=
  { maxSize := 10, maxImages := 1000, ttl := 24 * 60 * 60 * 1000,
    enableCompression := true, compressionQuality := 8/10 }

/-- A data url whose base64 payload is 16 characters, hence 12 decoded bytes. -/
def oversizedDataUrl : String := "data:image/jpeg;base64,AAAAAAAAAAAAAAAA"

/-! ## Claims -/

/-- C1 (amended): on the local Express API's `handleStreamProxy`, a GET/HEAD
request whose `streamUrl` is present with a non-empty value containing none
of the substrings `.m3u8 .ts .mp4 .mkv .avi .mov` is answered 400 with a JSON
error body and no outbound request is opened; a request with `streamUrl`
absent — or present but empty, which the source's `if (!streamUrl)` falsy
check treats the same way — gets 400 with message
`Missing streamUrl parameter` from both handlers.  (The Vercel serverless
handler performs no extension check, see the counterexample.) -/
theorem c1_stream_proxy_validation (req : ProxyReq) :
    (∀ s, req.streamUrl = some s → s ≠ "" → validStreamUrl s = false →
      handleStreamProxyPhase1 req =
        .reject (.json 400 "error" "Invalid stream URL format") ∧
      (handleStreamProxyPhase1 req).outbound = []) ∧
    (req.streamUrl = none ∨ req.streamUrl = some "" →
      handleStreamProxyPhase1 req =
        .reject (.json 400 "error" "Missing streamUrl parameter") ∧
      vercelStreamProxyPhase1 req =
        .reject (.json 400 "error" "Missing streamUrl parameter") ∧
      (handleStreamProxyPhase1 req).outbound = [] ∧
      (vercelStreamProxyPhase1 req).outbound = []) := by
  constructor
  · intro s hs hne hv
    simp [handleStreamProxyPhase1, hs, hne, hv, Phase1.outbound]
  · rintro (h | h) <;>
      simp [handleStreamProxyPhase1, vercelStreamProxyPhase1, h, Phase1.outbound]

/-- Witness for C1: the extensionless URL request is rejected by the Express
handler with 400 and no outbound request. -/
theorem c1_stream_proxy_validation_witness :
    handleStreamProxyPhase1 reqNoExt =
      .reject (.json 400 "error" "Invalid stream URL format") ∧
    (handleStreamProxyPhase1 reqNoExt).outbound = [] :=
  (c1_stream_proxy_validation reqNoExt).1 "http://example.com/live" rfl
    (by decide) (by decide)

/-- Counterexample for C1 as stated: the Vercel `/api/stream-proxy` handler
forwards a `streamUrl` with no recognised media extension instead of
responding 400 — it opens an outbound request. -/
theorem c1_counterexample_vercel_forwards_invalid_extension :
    validStreamUrl "http://example.com/live" = false ∧
    vercelStreamProxyPhase1 reqNoExt = .forward
      { url := "http://example.com/live", method := "GET",
        userAgent := chromeUserAgent, referer := "http://example.com",
        range := none, authorization := none, timeoutMs := 60000 } ∧
    (vercelStreamProxyPhase1 reqNoExt).outbound ≠ [] := by
  refine ⟨by decide, by decide, by decide⟩

/-- C2 (code bug): on upstream 200 for an `.mkv` target, the Express handler's
MKV branch evaluates `url.includes('.mkv')` on a `URL` instance, which has no
`includes` method, so a `TypeError` is thrown instead of overriding the
content type; the Vercel handler has no MKV branch at all and forwards the
Matroska content type unchanged.  Neither handler sends
`application/octet-stream` for the `.mkv` target. -/
theorem c2_mkv_content_type_bug :
    jsIncludes "http://example.com/video.mkv" ".mkv" = true ∧
    handleStreamProxyRespond false mkvUpstream200 =
      .error (.typeError "url.includes is not a function") ∧
    vercelStreamProxyRespond false mkvUpstream200 =
      .stream 200 "video/x-matroska" (some "1000") "bytes" none true := by
  refine ⟨by decide, rfl, by decide⟩

/-- C6: an upstream status other than 200/206 and not a 3xx carrying a
`Location` header is passed through: both handlers answer with the upstream
status code and the JSON body
`{status:"error", message:"Stream server responded with status <code>"}`.
(`statusCode ≠ 0` reflects that Node's HTTP parser only yields three-digit
status codes; the Vercel source guards with `upstream.statusCode || 500`.) -/
theorem c6_error_status_passthrough (isHead : Bool) (u : UpstreamResp)
    (h200 : u.statusCode ≠ 200) (h206 : u.statusCode ≠ 206)
    (h0 : u.statusCode ≠ 0)
    (hnored : ¬(300 ≤ u.statusCode ∧ u.statusCode < 400 ∧ u.location ≠ none)) :
    vercelStreamProxyRespond isHead u =
      .json u.statusCode "error"
        ("Stream server responded with status " ++ toString u.statusCode) ∧
    handleStreamProxyRespond isHead u =
      .ok (.json u.statusCode "error"
        ("Stream server responded with status " ++ toString u.statusCode)) := by
  have hcond :
      ¬(300 ≤ u.statusCode ∧ u.statusCode < 400 ∧ jsTruthy u.location = true) := by
    rintro ⟨ha, hb, hc⟩
    refine hnored ⟨ha, hb, ?_⟩
    cases hl : u.location with
    | none => rw [hl] at hc; simp [jsTruthy] at hc
    | some l => simp
  have hAnd : u.statusCode ≠ 200 ∧ u.statusCode ≠ 206 := ⟨h200, h206⟩
  simp only [vercelStreamProxyRespond, handleStreamProxyRespond,
    if_neg hcond, if_pos hAnd, if_neg h0]
  exact ⟨trivial, trivial⟩

/-- C5 (amended): on an upstream 3xx with a non-empty `Location` header `L`,
both handlers answer with a redirect to
`/api/stream-proxy?streamUrl=encodeURIComponent(L)`, and every outbound
request either handler ever opens goes to the request's own `streamUrl` —
one level of indirection per hop, the handler never follows `L` itself. -/
theorem c5_redirect_one_hop (isHead : Bool) (u : UpstreamResp) (L : String)
    (h3 : 300 ≤ u.statusCode) (h4 : u.statusCode < 400)
    (hloc : u.location = some L) (hne : L ≠ "") :
    vercelStreamProxyRespond isHead u =
      .redirect ("/api/stream-proxy?streamUrl=" ++ encodeURIComponent L) ∧
    handleStreamProxyRespond isHead u =
      .ok (.redirect ("/api/stream-proxy?streamUrl=" ++ encodeURIComponent L)) ∧
    (∀ req s, req.streamUrl = some s →
      ((handleStreamProxyPhase1 req).outbound.map (fun o => o.url) = [s] ∨
        (handleStreamProxyPhase1 req).outbound = []) ∧
      ((vercelStreamProxyPhase1 req).outbound.map (fun o => o.url) = [s] ∨
        (vercelStreamProxyPhase1 req).outbound = [])) := by
  have hcond :
      300 ≤ u.statusCode ∧ u.statusCode < 400 ∧ jsTruthy u.location = true := by
    refine ⟨h3, h4, ?_⟩
    rw [hloc]
    simp [jsTruthy, hne]
  refine ⟨?_, ?_, ?_⟩
  · unfold vercelStreamProxyRespond
    rw [if_pos hcond, hloc]
    simp
  · unfold handleStreamProxyRespond
    rw [if_pos hcond, hloc]
    simp
  · intro req s hs
    constructor
    · unfold handleStreamProxyPhase1
      rw [hs]
      by_cases h0 : s = ""
      · simp [h0, Phase1.outbound]
      · by_cases hv : validStreamUrl s
        · cases hp : parseOrigin s with
          | none => simp [h0, hv, hp, Phase1.outbound]
          | some o => simp [h0, hv, hp, Phase1.outbound, mkOutbound]
        · simp [h0, hv, Phase1.outbound]
    · unfold vercelStreamProxyPhase1
      rw [hs]
      by_cases h0 : s = ""
      · simp [h0, Phase1.outbound]
      · cases hp : parseOrigin s with
        | none => simp [h0, hp, Phase1.outbound]
        | some o => simp [h0, hp, Phase1.outbound, mkOutbound]

/-- Witness for C5: a 301 with `Location: http://cdn.example/live.m3u8` is
turned into a proxy-relative redirect by the Vercel handler. -/
theorem c5_redirect_one_hop_witness :
    vercelStreamProxyRespond false upstream301Loc =
      .redirect ("/api/stream-proxy?streamUrl=" ++
        encodeURIComponent "http://cdn.example/live.m3u8") :=
  (c5_redirect_one_hop false upstream301Loc "http://cdn.example/live.m3u8"
    (by decide) (by decide) rfl (by decide)).1

/-- Counterexample for C5 as stated: a 302 carrying a `Location` header whose
value is the empty string is not redirected — both handlers fall through to
the error branch, because the source tests the header with JavaScript
truthiness and `''` is falsy. -/
theorem c5_counterexample_empty_location_not_redirected :
    300 ≤ upstream302Empty.statusCode ∧ upstream302Empty.statusCode < 400 ∧
    upstream302Empty.location = some "" ∧
    vercelStreamProxyRespond false upstream302Empty =
      .json 302 "error" "Stream server responded with status 302" ∧
    handleStreamProxyRespond false upstream302Empty =
      .ok (.json 302 "error" "Stream server responded with status 302") := by
  exact ⟨by decide, by decide, rfl, by decide, rfl⟩

/-- C8 (amended): whenever a stream-proxy request passes validation (on either
handler), the outbound request is the same for both, goes to `streamUrl`, uses
HEAD exactly for an inbound HEAD, carries the fixed Chrome User-Agent and a
60000 ms timeout, and forwards `Range`/`Authorization` exactly when the
inbound header is present with a non-empty value. -/
theorem c8_outbound_request_shape (req : ProxyReq) (s : String)
    (out out' : OutboundReq) (hs : req.streamUrl = some s)
    (h1 : handleStreamProxyPhase1 req = .forward out)
    (h2 : vercelStreamProxyPhase1 req = .forward out') :
    out = out' ∧ out.url = s ∧
    out.userAgent = chromeUserAgent ∧ out.timeoutMs = 60000 ∧
    (req.method = .head → out.method = "HEAD") ∧
    (req.method = .get → out.method = "GET") ∧
    (∀ v, req.range = some v → v ≠ "" → out.range = some v) ∧
    ((req.range = none ∨ req.range = some "") → out.range = none) ∧
    (∀ v, req.authorization = some v → v ≠ "" → out.authorization = some v) ∧
    ((req.authorization = none ∨ req.authorization = some "") →
      out.authorization = none) := by
  unfold handleStreamProxyPhase1 at h1
  unfold vercelStreamProxyPhase1 at h2
  rw [hs] at h1 h2
  dsimp only at h1 h2
  by_cases h0 : s = ""
  · rw [if_pos h0] at h1
    simp at h1
  rw [if_neg h0] at h1 h2
  by_cases hv : validStreamUrl s
  · rw [if_neg (by simp [hv])] at h1
    cases hp : parseOrigin s with
    | none => rw [hp] at h2; simp at h2
    | some o =>
        rw [hp] at h1 h2
        simp only [Phase1.forward.injEq] at h1 h2
        subst h1
        subst h2
        refine ⟨rfl, rfl, rfl, rfl, ?_, ?_, ?_, ?_, ?_, ?_⟩
        · intro hm; simp [mkOutbound, hm]
        · intro hm; simp [mkOutbound, hm]
        · intro v hr hv'; simp [mkOutbound, jsTruthy, hr, hv']
        · rintro (hr | hr) <;> simp [mkOutbound, jsTruthy, hr]
        · intro v ha hv'; simp [mkOutbound, jsTruthy, ha, hv']
        · rintro (ha | ha) <;> simp [mkOutbound, jsTruthy, ha]
  · simp [hv] at h1

/-- Witness for C8: a GET for an `.mp4` with `Range: bytes=0-` and an
`Authorization` header produces an outbound GET carrying both headers, the
Chrome User-Agent and the 60 s timeout. -/
theorem c8_outbound_request_shape_witness :
    outValidExt.range = some "bytes=0-" ∧
    outValidExt.authorization = some "Bearer token123" ∧
    outValidExt.userAgent = chromeUserAgent ∧
    outValidExt.timeoutMs = 60000 ∧ outValidExt.method = "GET" := by
  have h := c8_outbound_request_shape reqValidExt "http://example.com/movie.mp4"
    outValidExt outValidExt rfl (by decide) (by decide)
  obtain ⟨-, -, hua, hto, -, hget, hrange, -, hauth, -⟩ := h
  exact ⟨hrange "bytes=0-" rfl (by decide), hauth "Bearer token123" rfl (by decide),
    hua, hto, hget rfl⟩

/-- Counterexample for C8 as stated: a `Range` header that is present with an
empty value is not forwarded upstream — the source spreads the header only
when its value is truthy, and `''` is falsy. -/
theorem c8_counterexample_empty_range_header_dropped :
    reqEmptyRange.range = some "" ∧
    (handleStreamProxyPhase1 reqEmptyRange).forwardedRange = some none ∧
    (vercelStreamProxyPhase1 reqEmptyRange).forwardedRange = some none := by
  exact ⟨rfl, by decide, by decide⟩

/-- Witness for C6: a 404 upstream is passed through by both handlers. -/
theorem c6_error_status_passthrough_witness :
    vercelStreamProxyRespond false upstream404 =
      .json 404 "error" "Stream server responded with status 404" ∧
    handleStreamProxyRespond false upstream404 =
      .ok (.json 404 "error" "Stream server responded with status 404") :=
  c6_error_status_passthrough false upstream404 (by decide) (by decide)
    (by decide) (by decide)

/-- C3: under the configuration `getAdaptiveQualityConfig` hands to the
quality monitor, a downgrade is signalled exactly when buffer health is below
0.3, an upgrade exactly when buffer health exceeds 0.7, network stability
exceeds 0.7, and more than the minimum delay (15000 ms VOD / 5000 ms live)
has passed since the last quality change; the two triggers are mutually
exclusive, so `assessQualityAndAdjust`'s `if / else if` fires each one
exactly under its own condition. -/
theorem c3_quality_thresholds (st : AdaptiveQualityState) (isVod : Bool)
    (now : ℚ) :
    (shouldDowngradeQuality st (getAdaptiveQualityConfig isVod) = true ↔
      st.bufferHealth < 3/10) ∧
    (shouldUpgradeQuality st (getAdaptiveQualityConfig isVod) isVod now = true ↔
      (st.bufferHealth > 7/10 ∧ st.networkStability > 7/10 ∧
        now - st.lastQualityChange > (if isVod then 15000 else 5000))) ∧
    ¬(shouldUpgradeQuality st (getAdaptiveQualityConfig isVod) isVod now = true ∧
      shouldDowngradeQuality st (getAdaptiveQualityConfig isVod) = true) := by
  have hdown :
      shouldDowngradeQuality st (getAdaptiveQualityConfig isVod) = true ↔
        st.bufferHealth < 3/10 := by
    simp [shouldDowngradeQuality, getAdaptiveQualityConfig]
  have hup :
      shouldUpgradeQuality st (getAdaptiveQualityConfig isVod) isVod now = true ↔
        (st.bufferHealth > 7/10 ∧ st.networkStability > 7/10 ∧
          now - st.lastQualityChange > (if isVod then 15000 else 5000)) := by
    cases isVod <;>
      simp [shouldUpgradeQuality, getAdaptiveQualityConfig, jsOrNum, and_assoc]
  refine ⟨hdown, hup, ?_⟩
  rintro ⟨h1, h2⟩
  have hbh := (hup.mp h1).1
  have hbl := hdown.mp h2
  linarith

/-- Witness for C3: a state with buffer health 0.25 triggers a downgrade. -/
theorem c3_quality_thresholds_witness :
    shouldDowngradeQuality stLow (getAdaptiveQualityConfig false) = true :=
  ((c3_quality_thresholds stLow false 0).1).mpr (by norm_num [stLow])

/-- C4 (amended): the buffer-health score equals
`min((bufferedEnd − currentTime) / (bufferedEnd − bufferedStart), 1)` when
there is a non-degenerate buffered span, equals 0 with no buffered range or
an empty span, is always at most 1, and is non-negative (hence in `[0, 1]`)
whenever `currentTime ≤ bufferedEnd`; it is negative when the playhead is
past the buffered end, so it does not always lie in `[0, 1]`. -/
theorem c4_buffer_health_range (hls : HlsState) :
    calculateBufferHealth hls ≤ 1 ∧
    (∀ m, hls.media = some m → m.buffered = [] →
      calculateBufferHealth hls = 0) ∧
    (∀ m r rs, hls.media = some m → m.buffered = r :: rs →
      ((rs.getLastD r).2 ≤ r.1 → calculateBufferHealth hls = 0) ∧
      (r.1 < (rs.getLastD r).2 →
        calculateBufferHealth hls =
          min (((rs.getLastD r).2 - m.currentTime) / ((rs.getLastD r).2 - r.1))
            1 ∧
        (m.currentTime ≤ (rs.getLastD r).2 →
          0 ≤ calculateBufferHealth hls))) := by
  obtain ⟨media, levels, cl⟩ := hls
  refine ⟨?_, ?_, ?_⟩
  · unfold calculateBufferHealth
    cases media with
    | none => norm_num
    | some m =>
        dsimp only
        cases m.buffered with
        | nil => norm_num
        | cons r rs =>
            dsimp only
            by_cases hle : (rs.getLastD r).2 ≤ r.1
            · rw [if_pos hle]; norm_num
            · rw [if_neg hle]; exact min_le_right _ _
  · intro m hm hb
    cases hm
    unfold calculateBufferHealth
    dsimp only
    rw [hb]
  · intro m r rs hm hb
    cases hm
    unfold calculateBufferHealth
    dsimp only
    rw [hb]
    dsimp only
    constructor
    · intro hle
      rw [if_pos hle]
    · intro hlt
      rw [if_neg (not_le.mpr hlt)]
      refine ⟨rfl, fun ht => ?_⟩
      refine le_min ?_ zero_le_one
      exact div_nonneg (sub_nonneg.mpr ht) (le_of_lt (sub_pos.mpr hlt))

/-- Witness for C4: with one buffered range `(0, 10)` and the playhead at 5,
the score is in `[0, 1]`. -/
theorem c4_buffer_health_range_witness :
    0 ≤ calculateBufferHealth hlsMid ∧ calculateBufferHealth hlsMid ≤ 1 := by
  have h := (c4_buffer_health_range hlsMid).2.2
    { buffered := [(0, 10)], currentTime := 5 } (0, 10) [] rfl rfl
  have h2 := h.2 (by norm_num)
  exact ⟨h2.2 (by norm_num), (c4_buffer_health_range hlsMid).1⟩

/-- Counterexample for C4 as stated: with the buffered range `(0, 10)` and the
playhead at 20 (past the buffered end), the score is `-1`, outside `[0, 1]`. -/
theorem c4_counterexample_negative_buffer_health :
    calculateBufferHealth hlsPastBuffer = -1 ∧
    ¬(0 ≤ calculateBufferHealth hlsPastBuffer) := by
  have h : calculateBufferHealth hlsPastBuffer = -1 := by
    norm_num [calculateBufferHealth, hlsPastBuffer, min_def]
  refine ⟨h, ?_⟩
  rw [h]
  norm_num

/-- C9: `/api/image` with a parseable `url` fetches the target with the
browser User-Agent and `Referer` set to the target's origin; a 2xx upstream is
relayed as 200 with the upstream content type (default `image/jpeg` when
missing), `Cache-Control: public, max-age=86400` and the fetched bytes; any
non-2xx upstream status is passed through with a JSON error body. -/
theorem c9_image_proxy (req : ImageReq) (u origin : String)
    (hu : req.url = some u) (ho : parseOrigin u = some origin) :
    imageHandlerPhase1 req = .inr
      { url := u, method := "GET", userAgent := chromeUserAgent,
        accept := "image/avif,image/webp,image/apng,image/*,*/*;q=0.8",
        referer := origin } ∧
    (∀ up : ImageUpstream, 200 ≤ up.status → up.status ≤ 299 →
      (∀ ct, up.contentType = some ct → ct ≠ "" →
        imageHandlerRespond up =
          .bytesResp 200 ct "public, max-age=86400" up.bytes) ∧
      (up.contentType = none →
        imageHandlerRespond up =
          .bytesResp 200 "image/jpeg" "public, max-age=86400" up.bytes)) ∧
    (∀ up : ImageUpstream, ¬(200 ≤ up.status ∧ up.status ≤ 299) →
      imageHandlerRespond up =
        .json up.status "error" ("Upstream responded " ++ toString up.status)) := by
  have hne : u ≠ "" := by
    intro h
    subst h
    rw [show parseOrigin "" = none from rfl] at ho
    exact Option.noConfusion ho
  refine ⟨?_, ?_, ?_⟩
  · unfold imageHandlerPhase1
    rw [hu]
    dsimp only
    rw [if_neg hne, ho]
  · intro up h1 h2
    unfold imageHandlerRespond
    rw [if_pos ⟨h1, h2⟩]
    constructor
    · intro ct hct hcne
      rw [hct]
      simp [jsOrStr, hcne]
    · intro hct
      rw [hct]
      rfl
  · intro up hnot
    unfold imageHandlerRespond
    rw [if_neg hnot]

/-- Witness for C9: a PNG request through a host with a port, with a 200 and a
403 upstream. -/
theorem c9_image_proxy_witness :
    imageHandlerPhase1 imageReqPng = .inr
      { url := "http://img.example:8080/poster.png", method := "GET",
        userAgent := chromeUserAgent,
        accept := "image/avif,image/webp,image/apng,image/*,*/*;q=0.8",
        referer := "http://img.example:8080" } ∧
    imageHandlerRespond imageUpstreamOk =
      .bytesResp 200 "image/png" "public, max-age=86400" [137, 80, 78] ∧
    imageHandlerRespond imageUpstreamForbidden =
      .json 403 "error" "Upstream responded 403" := by
  have h := c9_image_proxy imageReqPng "http://img.example:8080/poster.png"
    "http://img.example:8080" rfl (by decide)
  refine ⟨h.1, ?_, ?_⟩
  · exact (h.2.1 imageUpstreamOk (by decide) (by decide)).1 "image/png" rfl
      (by decide)
  · exact h.2.2 imageUpstreamForbidden (by decide)

/-- `upgradeQuality` never touches the stored network stability. -/
theorem upgradeQuality_fst_networkStability (hls : HlsState)
    (st : AdaptiveQualityState) (now : ℚ) :
    ((upgradeQuality hls st now).1).networkStability = st.networkStability := by
  unfold upgradeQuality
  cases hls.levels with
  | none => rfl
  | some levels =>
      dsimp only
      by_cases h1 : hls.currentLevel = -1
      · rw [if_pos h1]
      · rw [if_neg h1]
        by_cases h2 :
            findUpgradeLevel levels hls.currentLevel.toNat = hls.currentLevel.toNat
        · rw [if_pos h2]
        · rw [if_neg h2]

/-- `downgradeQuality` never touches the stored network stability. -/
theorem downgradeQuality_fst_networkStability (hls : HlsState)
    (st : AdaptiveQualityState) (now : ℚ) :
    ((downgradeQuality hls st now).1).networkStability = st.networkStability := by
  unfold downgradeQuality
  cases hls.levels with
  | none => rfl
  | some levels =>
      dsimp only
      by_cases h1 : hls.currentLevel = -1
      · rw [if_pos h1]
      · rw [if_neg h1]
        by_cases h2 :
            findDowngradeLevel levels hls.currentLevel.toNat = hls.currentLevel.toNat
        · rw [if_pos h2]
        · rw [if_neg h2]

/-- C10: `calculateNetworkStability` is the constant 0.8 for every HLS state,
and every completed run of `assessQualityAndAdjust` (state present,
`hls.levels` set) stores exactly 0.8 as the stream's network stability —
which is above the upgrade check's 0.7 bar. -/
theorem c10_network_stability_constant (st : AdaptiveQualityState)
    (hls : HlsState) (isVod : Bool) (config : AdaptiveQualityConfig)
    (now : ℚ) (levels : List Level) (hlev : hls.levels = some levels) :
    calculateNetworkStability hls = 4/5 ∧
    ((assessQualityAndAdjust (some st) hls isVod config now).1.map
      (fun s => s.networkStability)) = some (4/5) ∧
    (∀ st', (assessQualityAndAdjust (some st) hls isVod config now).1 = some st' →
      st'.networkStability > 7/10) := by
  have hmap :
      ((assessQualityAndAdjust (some st) hls isVod config now).1.map
        (fun s => s.networkStability)) = some (4/5) := by
    unfold assessQualityAndAdjust
    rw [hlev]
    dsimp only
    split
    · dsimp only
      rw [Option.map_some', upgradeQuality_fst_networkStability]
      rfl
    · split
      · dsimp only
        rw [Option.map_some', downgradeQuality_fst_networkStability]
        rfl
      · dsimp only
        rw [Option.map_some']
        rfl
  refine ⟨rfl, hmap, ?_⟩
  intro st' hst
  rw [hst] at hmap
  rw [Option.map_some'] at hmap
  have : st'.networkStability = 4/5 := Option.some.inj hmap
  rw [this]
  norm_num

/-- Witness for C10: an assessment over a present state with an empty level
list stores network stability 0.8. -/
theorem c10_network_stability_constant_witness :
    ((assessQualityAndAdjust (some stLow) hlsMid false
      (getAdaptiveQualityConfig false) 0).1.map
        (fun s => s.networkStability)) = some (4/5) :=
  (c10_network_stability_constant stLow hlsMid false
    (getAdaptiveQualityConfig false) 0 [] rfl).2.1

/-- C7 (code bug): `ensureCacheSpace` returns immediately — commenting
"Image is too large, can't cache it" — when the new image alone exceeds
`maxSize`, but `cacheImage` then inserts the entry unconditionally, so the
cached total (12 bytes) ends up above `maxSize` (10 bytes) with nothing
evicted: insertion does not preserve the size invariant the claim (and the
source's own comment) state. -/
theorem c7_oversized_image_cached_beyond_max_size :
    calculateDataUrlSize oversizedDataUrl = 12 ∧
    smallCacheConfig.maxSize = 10 ∧
    (cacheImage smallCacheConfig 0 [] "http://img.example/p.png"
      oversizedDataUrl).2 = [] ∧
    cacheTotalSize (cacheImage smallCacheConfig 0 [] "http://img.example/p.png"
      oversizedDataUrl).1 = 12 ∧
    cacheTotalSize (cacheImage smallCacheConfig 0 [] "http://img.example/p.png"
      oversizedDataUrl).1 > smallCacheConfig.maxSize := by
  have hsplit : (splitOnChar ',' oversizedDataUrl.toList).get? 1 =
      some (List.replicate 16 'A') := by decide
  have hsize : calculateDataUrlSize oversizedDataUrl = 12 := by
    unfold calculateDataUrlSize
    rw [hsplit]
    dsimp only
    rw [if_neg (by decide)]
    simp only [List.length_replicate]
    norm_num
  have hmain : cacheImage smallCacheConfig 0 [] "http://img.example/p.png"
      oversizedDataUrl =
      ([{ url := "http://img.example/p.png", dataUrl := oversizedDataUrl,
          timestamp := 0, size := 12, lastAccessed := 0, accessCount := 1 }],
        []) := by
    unfold cacheImage ensureCacheSpace
    rw [hsize]
    dsimp only
    rw [if_pos (by norm_num [smallCacheConfig])]
    dsimp only
    unfold mapSet
    simp
  refine ⟨hsize, rfl, ?_, ?_, ?_⟩
  · rw [hmain]
  · rw [hmain]; norm_num [cacheTotalSize]
  · rw [hmain]; norm_num [cacheTotalSize, smallCacheConfig]

end RuvoPlayer
